import Mathlib

/-!
Shallow embedding of `programs/solana-twitter/src/lib.rs`, an Anchor program
with a single instruction `send_tweet` that creates an immutable Tweet record.

Modelling choices:
  - A Solana `Pubkey` (32 bytes) is modelled as a natural number.
  - Rust `String` is modelled as Lean `String`; both hold sequences of Unicode
    scalar values, and Rust's `s.chars().count()` corresponds to Lean's
    `String.length`, while the UTF-8 byte length corresponds to
    `String.utf8ByteSize`.
  - The handler mutates the `tweet` account through `&mut`; this is embedded
    as explicit state passing: the handler takes the account's prior state and
    returns the pair of the `ProgramResult` and the resulting account state.
    On an early `return Err(..)` the account state is returned unchanged,
    matching the source where both guards run before any field assignment.
  - `Clock::get().unwrap().unix_timestamp` is an ambient host value; it is
    passed to the embedded handler as the explicit argument
    `clock_unix_timestamp`.
-/

/-- A 32-byte public key, modelled as a natural number. -/
abbrev Pubkey := Nat

/-- The canonical system program address, `anchor_lang::solana_program::system_program::ID`.
On Solana this is the all-zero key (base58 `11111111111111111111111111111111`),
modelled here as `0`. -/
def system_program_ID : Pubkey := 0

/-- `const DISCRIMATOR_LENGTH: usize = 8;` (source spelling kept). -/
def DISCRIMATOR_LENGTH : Nat := 8

/-- `const PUBLIC_KEY_LENGTH: usize = 32;` -/
def PUBLIC_KEY_LENGTH : Nat := 32

/-- `const TIMESTAMP_LENGTH: usize = 8;` -/
def TIMESTAMP_LENGTH : Nat := 8

/-- `const STRING_LENGTH_PREFIX: usize = 4;` -/
def STRING_LENGTH_PREFIX : Nat := 4

/-- `const MAX_TOPIC_LENGTH: usize = 200;` -/
def MAX_TOPIC_LENGTH : Nat := 200

/-- `const MAX_CONTENT_LENGTH: usize = 280 * 4;` -/
def MAX_CONTENT_LENGTH : Nat := 280 * 4

/-- `const MAX_TOPIC_CHARS: usize = 50;` -/
def MAX_TOPIC_CHARS : Nat := 50

/-- `const MAX_CONTENT_CHARS: usize = 280;` -/
def MAX_CONTENT_CHARS : Nat := 280

/-- The `Tweet` account data, from `pub struct Tweet`. -/
structure Tweet where
  author : Pubkey
  timestamp : Int
  topic : String
  content : String
deriving DecidableEq, Repr

/-- `impl Tweet { const LEN: usize = ... }` — the fixed account size. -/
def Tweet.LEN : Nat :=
  DISCRIMATOR_LENGTH
    + PUBLIC_KEY_LENGTH
    + TIMESTAMP_LENGTH
    + STRING_LENGTH_PREFIX + MAX_TOPIC_LENGTH
    + STRING_LENGTH_PREFIX + MAX_CONTENT_LENGTH

/-- The custom program errors from `pub enum ErrorCode`. -/
inductive ErrorCode where
  | TopicTooLong
  | ContentTooLong
deriving DecidableEq, Repr

/-- The `send_tweet` handler body. Takes the prior state of the `tweet`
account (zeroed by the host at `init`), the signer's key `*author.key`, the
host clock's `unix_timestamp`, and the two instruction arguments; returns the
`ProgramResult` together with the resulting `tweet` account state. -/
def send_tweet (tweet : Tweet) (author : Pubkey) (clock_unix_timestamp : Int)
    (topic content : String) : Except ErrorCode Unit × Tweet :=
  if topic.length > MAX_TOPIC_CHARS then
    (Except.error ErrorCode.TopicTooLong, tweet)
  else if content.length > MAX_CONTENT_CHARS then
    (Except.error ErrorCode.ContentTooLong, tweet)
  else
    (Except.ok (), ⟨author, clock_unix_timestamp, topic, content⟩)

/-- The accounts of `pub struct SendTweetInstruction`: the new `tweet`
account's (zeroed) state, the `author` signer's key, and the key of the
supplied `system_program` account. The struct carries no author field beyond
the signer itself, so the handler receives no caller-chosen author value. -/
structure SendTweetInstruction where
  tweet : Tweet
  author : Pubkey
  system_program : Pubkey
deriving DecidableEq, Repr

/-- Transaction-level outcome: either the account-constraint failure or a
handler error. `InvalidAllocator` is the spec's name for the failure of the
`#[account(address = system_program::ID)]` constraint. -/
inductive TxError where
  | InvalidAllocator
  | Program (e : ErrorCode)
deriving DecidableEq, Repr

/-- Modelled from the spec: the enforcement of the Anchor account constraint
`#[account(address = system_program::ID)]` on `SendTweetInstruction` is
framework-generated code not present in the repository. Per the spec
(section 4.1 step 1, section 7), a mismatched allocator identity aborts with
`InvalidAllocator` before any handler logic runs and before any field is
written; otherwise the `send_tweet` handler body executes. -/
def process_send_tweet (accounts : SendTweetInstruction)
    (clock_unix_timestamp : Int) (topic content : String) :
    Except TxError Unit × Tweet :=
  if accounts.system_program = system_program_ID then
    match send_tweet accounts.tweet accounts.author clock_unix_timestamp
        topic content with
    | (Except.ok u, t) => (Except.ok u, t)
    | (Except.error e, t) => (Except.error (TxError.Program e), t)
  else
    (Except.error TxError.InvalidAllocator, accounts.tweet)

/-- The zeroed state the host gives a freshly allocated account. -/
def Tweet.zeroed : Tweet := ⟨0, 0, "", ""⟩

/-- A topic of exactly 50 one-byte characters. -/
def topic50 : String := String.mk (List.replicate 50 'a')

/-- A topic of 51 characters. -/
def topic51 : String := String.mk (List.replicate 51 'a')

/-- A content of exactly 280 one-byte characters. -/
def content280 : String := String.mk (List.replicate 280 'b')

/-- A content of 281 characters. -/
def content281 : String := String.mk (List.replicate 281 'b')

/-- A topic of exactly 50 three-byte characters (U+3042, 3 UTF-8 bytes). -/
def topic50wide : String := String.mk (List.replicate 50 'あ')

/-- A content of exactly 280 three-byte characters. -/
def content280wide : String := String.mk (List.replicate 280 'あ')

set_option maxRecDepth 20000

deriving instance DecidableEq for Except

/-- Claim C1: for every topic of at most 50 characters and content of at most
280 characters, with a valid signer and the genuine system allocator,
`send_tweet` returns success and the stored record's `topic` and `content`
fields equal the input strings exactly. -/
theorem send_tweet_roundtrip (t0 : Tweet) (k : Pubkey) (ts : Int)
    (topic content : String)
    (ht : topic.length ≤ MAX_TOPIC_CHARS) (hc : content.length ≤ MAX_CONTENT_CHARS) :
    (process_send_tweet ⟨t0, k, system_program_ID⟩ ts topic content).1 = Except.ok ()
      ∧ (process_send_tweet ⟨t0, k, system_program_ID⟩ ts topic content).2.topic = topic
      ∧ (process_send_tweet ⟨t0, k, system_program_ID⟩ ts topic content).2.content = content := by
  simp [process_send_tweet, send_tweet, Nat.not_lt.mpr ht, Nat.not_lt.mpr hc]

/-- Witness for C1 at the boundary: a topic of exactly 50 characters and a
content of exactly 280 characters round-trip successfully. -/
theorem send_tweet_roundtrip_witness :
    topic50.length = 50 ∧ content280.length = 280
      ∧ topic50.length ≤ MAX_TOPIC_CHARS ∧ content280.length ≤ MAX_CONTENT_CHARS
      ∧ ((process_send_tweet ⟨Tweet.zeroed, 7, system_program_ID⟩ 1234 topic50 content280).1 = Except.ok ()
        ∧ (process_send_tweet ⟨Tweet.zeroed, 7, system_program_ID⟩ 1234 topic50 content280).2.topic = topic50
        ∧ (process_send_tweet ⟨Tweet.zeroed, 7, system_program_ID⟩ 1234 topic50 content280).2.content = content280) :=
  ⟨by decide, by decide, by decide, by decide,
    send_tweet_roundtrip Tweet.zeroed 7 1234 topic50 content280 (by decide) (by decide)⟩

/-- Claim C2: for every topic of more than 50 characters, `send_tweet` fails
with `TopicTooLong` and the tweet account state is left untouched. -/
theorem send_tweet_topic_too_long (t0 : Tweet) (k : Pubkey) (ts : Int)
    (topic content : String) (ht : topic.length > MAX_TOPIC_CHARS) :
    (send_tweet t0 k ts topic content).1 = Except.error ErrorCode.TopicTooLong
      ∧ (send_tweet t0 k ts topic content).2 = t0 := by
  simp [send_tweet, ht]

/-- Witness for C2: a 51-character topic fails with `TopicTooLong` and writes
nothing. -/
theorem send_tweet_topic_too_long_witness :
    topic51.length > MAX_TOPIC_CHARS
      ∧ ((send_tweet Tweet.zeroed 7 1234 topic51 content280).1 = Except.error ErrorCode.TopicTooLong
        ∧ (send_tweet Tweet.zeroed 7 1234 topic51 content280).2 = Tweet.zeroed) :=
  ⟨by decide, send_tweet_topic_too_long Tweet.zeroed 7 1234 topic51 content280 (by decide)⟩

/-- Claim C3: for every content of more than 280 characters and topic of at
most 50 characters, `send_tweet` fails with `ContentTooLong`. -/
theorem send_tweet_content_too_long (t0 : Tweet) (k : Pubkey) (ts : Int)
    (topic content : String)
    (ht : topic.length ≤ MAX_TOPIC_CHARS) (hc : content.length > MAX_CONTENT_CHARS) :
    (send_tweet t0 k ts topic content).1 = Except.error ErrorCode.ContentTooLong
      ∧ (send_tweet t0 k ts topic content).2 = t0 := by
  simp [send_tweet, Nat.not_lt.mpr ht, hc]

/-- Witness for C3: a 281-character content fails with `ContentTooLong`. -/
theorem send_tweet_content_too_long_witness :
    topic50.length ≤ MAX_TOPIC_CHARS ∧ content281.length > MAX_CONTENT_CHARS
      ∧ ((send_tweet Tweet.zeroed 7 1234 topic50 content281).1 = Except.error ErrorCode.ContentTooLong
        ∧ (send_tweet Tweet.zeroed 7 1234 topic50 content281).2 = Tweet.zeroed) :=
  ⟨by decide, by decide,
    send_tweet_content_too_long Tweet.zeroed 7 1234 topic50 content281 (by decide) (by decide)⟩

/-- Claim C4: whenever `send_tweet` returns an error, the tweet account state
is unchanged — both character-count guards run before any field assignment, so
failure is all-or-nothing at the handler level. -/
theorem send_tweet_error_no_mutation (t0 : Tweet) (k : Pubkey) (ts : Int)
    (topic content : String) (e : ErrorCode)
    (h : (send_tweet t0 k ts topic content).1 = Except.error e) :
    (send_tweet t0 k ts topic content).2 = t0 := by
  by_cases h1 : topic.length > MAX_TOPIC_CHARS
  · simp [send_tweet, h1]
  · by_cases h2 : content.length > MAX_CONTENT_CHARS
    · simp [send_tweet, h1, h2]
    · exfalso
      simp [send_tweet, h1, h2] at h

/-- Witness for C4: the failing 51-character-topic call leaves the zeroed
account exactly as it was. -/
theorem send_tweet_error_no_mutation_witness :
    (send_tweet Tweet.zeroed 7 1234 topic51 content281).1 = Except.error ErrorCode.TopicTooLong
      ∧ (send_tweet Tweet.zeroed 7 1234 topic51 content281).2 = Tweet.zeroed :=
  ⟨by decide,
    send_tweet_error_no_mutation Tweet.zeroed 7 1234 topic51 content281
      ErrorCode.TopicTooLong (by decide)⟩

/-- Claim C5: on every successful call, the stored record's `author` field
equals the signer's key; the handler takes no author argument besides the
signer account itself (`tweet.author = *author.key`). -/
theorem send_tweet_author_eq_signer (t0 : Tweet) (k : Pubkey) (ts : Int)
    (topic content : String)
    (h : (send_tweet t0 k ts topic content).1 = Except.ok ()) :
    (send_tweet t0 k ts topic content).2.author = k := by
  by_cases h1 : topic.length > MAX_TOPIC_CHARS
  · exfalso
    simp [send_tweet, h1] at h
  · by_cases h2 : content.length > MAX_CONTENT_CHARS
    · exfalso
      simp [send_tweet, h1, h2] at h
    · simp [send_tweet, h1, h2]

/-- Witness for C5: a successful call stores the signer key 42 as author. -/
theorem send_tweet_author_eq_signer_witness :
    (send_tweet Tweet.zeroed 42 1234 topic50 content280).1 = Except.ok ()
      ∧ (send_tweet Tweet.zeroed 42 1234 topic50 content280).2.author = 42 :=
  ⟨by decide, send_tweet_author_eq_signer Tweet.zeroed 42 1234 topic50 content280 (by decide)⟩

/-- Claim C6: on every successful call, the stored record's `timestamp` field
equals the host clock's `unix_timestamp` read during execution
(`tweet.timestamp = clock.unix_timestamp`), never a caller-supplied value:
the instruction's only arguments are `topic` and `content`. -/
theorem send_tweet_timestamp_eq_clock (t0 : Tweet) (k : Pubkey) (ts : Int)
    (topic content : String)
    (h : (send_tweet t0 k ts topic content).1 = Except.ok ()) :
    (send_tweet t0 k ts topic content).2.timestamp = ts := by
  by_cases h1 : topic.length > MAX_TOPIC_CHARS
  · exfalso
    simp [send_tweet, h1] at h
  · by_cases h2 : content.length > MAX_CONTENT_CHARS
    · exfalso
      simp [send_tweet, h1, h2] at h
    · simp [send_tweet, h1, h2]

/-- Witness for C6: a successful call stores the clock reading 1700000000. -/
theorem send_tweet_timestamp_eq_clock_witness :
    (send_tweet Tweet.zeroed 42 1700000000 topic50 content280).1 = Except.ok ()
      ∧ (send_tweet Tweet.zeroed 42 1700000000 topic50 content280).2.timestamp = 1700000000 :=
  ⟨by decide, send_tweet_timestamp_eq_clock Tweet.zeroed 42 1700000000 topic50 content280 (by decide)⟩

/-- Claim C7: the reserved account size `Tweet.LEN` is the compile-time
constant 1376 = 8 + 32 + 8 + (4 + 200) + (4 + 1120); it is built from the
byte caps (4 bytes per character times the character caps), not from any
payload, since `Tweet.LEN` takes no argument at all. -/
theorem tweet_LEN_eq_1376 :
    Tweet.LEN = 1376
      ∧ Tweet.LEN = 8 + 32 + 8 + (4 + 200) + (4 + 1120)
      ∧ MAX_TOPIC_LENGTH = 4 * MAX_TOPIC_CHARS
      ∧ MAX_CONTENT_LENGTH = 4 * MAX_CONTENT_CHARS := by
  decide

/-- Claim C8: the 50/280 limits are on character counts, not bytes: a topic of
50 three-byte characters (150 UTF-8 bytes) and a content of 280 three-byte
characters (840 UTF-8 bytes) both succeed and are stored verbatim. -/
theorem send_tweet_counts_chars_not_bytes :
    topic50wide.length = 50 ∧ topic50wide.utf8ByteSize = 150
      ∧ content280wide.length = 280 ∧ content280wide.utf8ByteSize = 840
      ∧ (send_tweet Tweet.zeroed 7 0 topic50wide content280wide).1 = Except.ok ()
      ∧ (send_tweet Tweet.zeroed 7 0 topic50wide content280wide).2.topic = topic50wide
      ∧ (send_tweet Tweet.zeroed 7 0 topic50wide content280wide).2.content = content280wide := by
  refine ⟨by decide, by decide, by decide, by decide, by decide, by decide, by decide⟩

/-- Claim C9: a call whose system-program account address differs from the
canonical allocator address is rejected with `InvalidAllocator` and no record
field is written. -/
theorem invalid_allocator_rejected (a : SendTweetInstruction) (ts : Int)
    (topic content : String) (h : a.system_program ≠ system_program_ID) :
    (process_send_tweet a ts topic content).1 = Except.error TxError.InvalidAllocator
      ∧ (process_send_tweet a ts topic content).2 = a.tweet := by
  simp [process_send_tweet, h]

/-- Witness for C9: address 3 is not the system allocator, so the call is
rejected and the zeroed account is untouched. -/
theorem invalid_allocator_rejected_witness :
    (3 : Pubkey) ≠ system_program_ID
      ∧ ((process_send_tweet ⟨Tweet.zeroed, 7, 3⟩ 0 topic50 content280).1 = Except.error TxError.InvalidAllocator
        ∧ (process_send_tweet ⟨Tweet.zeroed, 7, 3⟩ 0 topic50 content280).2 = Tweet.zeroed) :=
  ⟨by decide, invalid_allocator_rejected ⟨Tweet.zeroed, 7, 3⟩ 0 topic50 content280 (by decide)⟩

/-- Claim C10: when the topic exceeds 50 characters and the content exceeds
280 characters in the same call, the topic guard runs first, so `send_tweet`
returns `TopicTooLong`, not `ContentTooLong`. -/
theorem send_tweet_topic_error_precedence (t0 : Tweet) (k : Pubkey) (ts : Int)
    (topic content : String)
    (ht : topic.length > MAX_TOPIC_CHARS) (hc : content.length > MAX_CONTENT_CHARS) :
    (send_tweet t0 k ts topic content).1 = Except.error ErrorCode.TopicTooLong := by
  simp [send_tweet, ht]

/-- Witness for C10: a 51-character topic together with a 281-character
content yields `TopicTooLong`. -/
theorem send_tweet_topic_error_precedence_witness :
    topic51.length > MAX_TOPIC_CHARS ∧ content281.length > MAX_CONTENT_CHARS
      ∧ (send_tweet Tweet.zeroed 7 0 topic51 content281).1 = Except.error ErrorCode.TopicTooLong :=
  ⟨by decide, by decide,
    send_tweet_topic_error_precedence Tweet.zeroed 7 0 topic51 content281 (by decide) (by decide)⟩
